import Mathlib

/-!
Shallow embedding of `causalpy/utils.py` (CausalPy utility helpers) and proofs
about its four functions:

* `_is_variable_dummy_coded(series)` — membership of all values in `{0, 1}`;
* `_series_has_2_levels(series)` — exactly two category levels;
* `_format_sig_figs(value, default)` / `round_num(n, round_to)` — significant
  figures and `%g` rendering;
* `convert_to_string(x, round_to)` — scalar / distributional value formatter.

Python numbers are embedded as exact rationals (`ℚ`), Python `None`-able
failure (raised exceptions) as `Option`, pandas/NumPy/xarray collaborator
methods as explicit Lean functions following their documented semantics.
-/

/-! ## Python scalar values, as they can occur in a pandas Series

A pandas column handed to `_is_variable_dummy_coded` can hold ints, bools,
floats, or missing values (NaN).  Python numeric equality (`==`) compares
the mathematical value across these types (`True == 1`, `False == 0`,
`1.0 == 1`); NaN compares unequal to everything, including itself. -/

inductive PyScalar where
  | pint : ℤ → PyScalar
  | pbool : Bool → PyScalar
  | pfloat : ℚ → PyScalar
  | pnan : PyScalar
  deriving DecidableEq

/-- The mathematical value a Python scalar carries under numeric comparison;
`none` for NaN, which is `==`-unequal to everything. -/
def pyVal? : PyScalar → Option ℚ
  | .pint n => some (n : ℚ)
  | .pbool b => some (if b then 1 else 0)
  | .pfloat q => some q
  | .pnan => none

/-- Python `==` on scalars: numeric values compare equal iff equal as
rationals; any comparison involving NaN is false. -/
def pyEq (a b : PyScalar) : Bool :=
  match pyVal? a, pyVal? b with
  | some x, some y => x == y
  | _, _ => false

/-- Embedding of `_is_variable_dummy_coded(series)`:
`return len(set(series).difference(set([0, 1]))) == 0`.
`set(series)` is modelled as `series.dedup` (Python's set additionally merges
`==`-equal values of different types, e.g. `1` and `True`, which changes only
multiplicities, never emptiness of the difference below); `difference` removes
the elements that are Python-`==` to an element of `set([0, 1])`. -/
def _is_variable_dummy_coded (series : List PyScalar) : Bool :=
  ((series.dedup).filter fun v =>
    ! (([PyScalar.pint 0, PyScalar.pint 1].dedup).any fun w => pyEq v w)).length == 0

/-! ## Categorical series

A pandas Series handed to `_series_has_2_levels` is a list of observations
(`none` = NaN) which may in addition carry a pandas `CategoricalDtype` whose
declared category list can include labels that never occur in the data. -/

structure PdSeries where
  values : List (Option String)
  catDtype : Option (List String)
  deriving DecidableEq

/-- Embedding of `pd.Categorical(series).categories`.  Per the documented
pandas constructor semantics: when `series` already has a categorical dtype,
the constructor keeps that dtype's category list unchanged — including
declared-but-unobserved labels (this is why
`Categorical.remove_unused_categories` exists); otherwise the categories are
the distinct non-missing values (pandas sorts them, but only the count is
used here, so order is irrelevant to every statement below). -/
def pdCategorical_categories (s : PdSeries) : List String :=
  match s.catDtype with
  | some cats => cats
  | none => (s.values.filterMap id).dedup

/-- Embedding of `_series_has_2_levels(series)`:
`return len(pd.Categorical(series).categories) == 2`. -/
def _series_has_2_levels (s : PdSeries) : Bool :=
  (pdCategorical_categories s).length == 2

/-! ## Helper lemmas for the dummy-coding check -/

theorem pyEq_pint_iff (v : PyScalar) (n : ℤ) :
    pyEq v (.pint n) = true ↔ pyVal? v = some (n : ℚ) := by
  have hn : pyVal? (.pint n) = some (n : ℚ) := rfl
  unfold pyEq
  rw [hn]
  cases h : pyVal? v with
  | none => simp
  | some x => simp [beq_iff_eq]

theorem mem01_iff (v : PyScalar) :
    (([PyScalar.pint 0, PyScalar.pint 1].dedup).any fun w => pyEq v w) = true ↔
      pyVal? v = some 0 ∨ pyVal? v = some 1 := by
  have hd : ([PyScalar.pint 0, PyScalar.pint 1].dedup) = [PyScalar.pint 0, PyScalar.pint 1] := by
    decide
  rw [hd]
  simp only [List.any_cons, List.any_nil, Bool.or_false, Bool.or_eq_true]
  rw [pyEq_pint_iff, pyEq_pint_iff]
  norm_num

theorem is_dummy_coded_iff_aux (series : List PyScalar) :
    _is_variable_dummy_coded series = true ↔
      ∀ v ∈ series, pyVal? v = some 0 ∨ pyVal? v = some 1 := by
  unfold _is_variable_dummy_coded
  rw [beq_iff_eq, List.length_eq_zero, List.filter_eq_nil_iff]
  constructor
  · intro h v hv
    have h2 := h v (List.mem_dedup.mpr hv)
    rw [← mem01_iff v]
    cases hX : (([PyScalar.pint 0, PyScalar.pint 1].dedup).any fun w => pyEq v w)
    · rw [hX] at h2
      exact absurd rfl h2
    · rfl
  · intro h v hv
    have h2 := (mem01_iff v).mpr (h v (List.mem_dedup.mp hv))
    rw [h2]
    simp

/-! ## Claim C1 -/

/-- Claim C1: `_is_variable_dummy_coded` returns true iff every distinct value
in the column is a member of `\x7b0, 1\x7d` under Python equality; in
particular the empty column yields true and any column containing a value
outside `\x7b0, 1\x7d` yields false. -/
theorem C1_is_dummy_coded_iff (series : List PyScalar) :
    _is_variable_dummy_coded series = true ↔
      ∀ v ∈ series, pyVal? v = some 0 ∨ pyVal? v = some 1 :=
  is_dummy_coded_iff_aux series

/-! ## Claim C8 -/

/-- Claim C8: a column consisting only of the booleans True and False is
dummy coded, because Python membership in `\x7b0, 1\x7d` is decided by `==`
and `True == 1`, `False == 0`. -/
theorem C8_bool_column_dummy_coded (series : List PyScalar)
    (h : ∀ v ∈ series, v = .pbool true ∨ v = .pbool false) :
    _is_variable_dummy_coded series = true := by
  rw [is_dummy_coded_iff_aux]
  intro v hv
  rcases h v hv with rfl | rfl
  · right; simp [pyVal?]
  · left; simp [pyVal?]

theorem C8_witness :
    (∀ v ∈ [PyScalar.pbool true, PyScalar.pbool false],
      v = .pbool true ∨ v = .pbool false)
    ∧ _is_variable_dummy_coded [PyScalar.pbool true, PyScalar.pbool false] = true :=
  ⟨by decide, C8_bool_column_dummy_coded [PyScalar.pbool true, PyScalar.pbool false] (by decide)⟩

/-! ## Claim C2 (corrected)

The claim says declared-but-unobserved category labels are excluded from the
level count.  The code builds `pd.Categorical(series)`, which keeps a
pre-existing categorical dtype's declared categories, so a series carrying a
three-label dtype with only two observed labels yields false. -/

/-- Claim C2 counterexample: the column `["a", "b", "a"]` carrying a declared
categorical dtype `["a", "b", "c"]` has exactly two distinct observed labels,
yet `_series_has_2_levels` returns false, refuting the claim that unused
declared labels are excluded from the count. -/
theorem C2_counterexample :
    ((([some "a", some "b", some "a"] : List (Option String)).filterMap id).dedup).length = 2
    ∧ _series_has_2_levels
        ⟨[some "a", some "b", some "a"], some ["a", "b", "c"]⟩ = false := by
  constructor
  · decide
  · decide

/-- Claim C2 (amended): for a column with no declared categorical dtype,
`_series_has_2_levels` returns true iff exactly two distinct non-missing
labels occur in the data; for a column that already carries a categorical
dtype, it returns true iff that dtype declares exactly two categories,
counting declared-but-unobserved labels. -/
theorem C2_has_two_levels_amended (s : PdSeries) :
    (s.catDtype = none →
      (_series_has_2_levels s = true ↔
        ((s.values.filterMap id).dedup).length = 2))
    ∧ ∀ cats, s.catDtype = some cats →
      (_series_has_2_levels s = true ↔ cats.length = 2) := by
  obtain ⟨vals, dt⟩ := s
  constructor
  · rintro rfl
    simp [_series_has_2_levels, pdCategorical_categories]
  · rintro cats rfl
    simp [_series_has_2_levels, pdCategorical_categories]

theorem C2_witness :
    _series_has_2_levels ⟨[some "a", some "b", some "a"], none⟩ = true :=
  ((C2_has_two_levels_amended ⟨[some "a", some "b", some "a"], none⟩).1 rfl).mpr (by decide)

/-! ## Claim C10 (corrected)

NaN is indeed never counted as a level, but the claim's "every column" also
covers columns carrying a categorical dtype, where the declared categories —
not the observed labels — are counted, so the result need not be true. -/

/-- Claim C10 counterexample: the column `["x", "y"]` with declared
categorical dtype `["x", "y", "z"]` has exactly two distinct non-missing
labels, yet after adding a NaN entry `_series_has_2_levels` is false, not
true, refuting the claim as stated for dtype-carrying columns. -/
theorem C10_counterexample :
    ((([some "x", some "y"] : List (Option String)).filterMap id).dedup).length = 2
    ∧ _series_has_2_levels
        ⟨[some "x", some "y", none], some ["x", "y", "z"]⟩ = false := by
  constructor
  · decide
  · decide

/-- Claim C10 (amended): for a column with no declared categorical dtype
whose non-missing values take exactly two distinct labels, appending any
number of NaN entries leaves `_series_has_2_levels` true — NaN entries are
never counted as a category level. -/
theorem C10_nan_not_a_level (vals : List (Option String)) (k : ℕ)
    (h : ((vals.filterMap id).dedup).length = 2) :
    _series_has_2_levels ⟨vals ++ List.replicate k none, none⟩ = true := by
  have hrep : (List.replicate k (none : Option String)).filterMap id = [] := by
    rw [List.filterMap_eq_nil_iff]
    intro a ha
    rw [List.mem_replicate] at ha
    rw [ha.2]
    rfl
  simp only [_series_has_2_levels, pdCategorical_categories, List.filterMap_append,
    hrep, List.append_nil]
  rw [beq_iff_eq]
  exact h

theorem C10_witness :
    (((([some "u", none, some "w"] : List (Option String)).filterMap id).dedup).length = 2)
    ∧ _series_has_2_levels
        ⟨[some "u", none, some "w"] ++ List.replicate 2 none, none⟩ = true :=
  ⟨by decide, C10_nan_not_a_level [some "u", none, some "w"] 2 (by decide)⟩

/-! ## Numbers and rendering

Python floats are embedded as exact rationals; `np.log10` composed with
`int()` truncation, decimal rounding and digit rendering are modelled
exactly over `ℚ`. -/

/-- Round to the nearest integer, ties to even — the rounding applied by
Python when formatting a value with a fixed number of digits. -/
def roundHalfEvenZ (q : ℚ) : ℤ :=
  if q - (⌊q⌋ : ℚ) < 1/2 then ⌊q⌋
  else if 1/2 < q - (⌊q⌋ : ℚ) then ⌊q⌋ + 1
  else if ⌊q⌋ % 2 = 0 then ⌊q⌋ else ⌊q⌋ + 1

/-- Decimal digit string of a natural number. -/
def natToStr (n : ℕ) : String :=
  String.mk (Nat.toDigits 10 n)

/-- Remove trailing `0` characters (the `%g` format strips insignificant
trailing zeros). -/
def dropTrailingZeros (cs : List Char) : List Char :=
  (cs.reverse.dropWhile (· = '0')).reverse

/-- Embedding of `int(np.log10(np.abs(value)))` from `_format_sig_figs`.
`np.log10(0.0)` is `-inf` and `int(-inf)` raises `OverflowError`, modelled as
`none`.  For `1 ≤ |v|` the log is nonnegative and `int()` truncation is the
floor, `Int.log 10`; for `|v| < 1` the log is negative and truncation toward
zero is the ceiling, `Int.clog 10`.  The float computation is modelled
exactly over `ℚ`. -/
def np_log10_trunc (v : ℚ) : Option ℤ :=
  if v = 0 then none
  else some (if 1 ≤ |v| then Int.log 10 |v| else Int.clog 10 |v|)

/-- Embedding of `_format_sig_figs(value, default=None)`:
`if default is None: default = 2`; `if value == 0: return 1`;
`return max(int(np.log10(np.abs(value))) + 1, default)`.
The unset default is `none`. -/
def _format_sig_figs (value : ℚ) (default : Option ℤ) : Option ℤ :=
  if value = 0 then some 1
  else (np_log10_trunc value).map fun t => max (t + 1) (default.getD 2)

/-- Embedding of Python `f"\x7bx:.\x7bp\x7dg\x7d"` on an exact rational:
round to `max p 1` significant digits (a precision of 0 is treated as 1),
then use fixed notation when the decimal exponent `e` satisfies
`-4 ≤ e < p` and scientific notation otherwise, stripping insignificant
trailing zeros; the exponent is printed signed with at least two digits. -/
def pyFormatG (prec : ℤ) (x : ℚ) : String :=
  let p : ℕ := max prec.toNat 1
  if x = 0 then "0"
  else
    let sgn := if x < 0 then "-" else ""
    let a := |x|
    let e0 := Int.log 10 a
    let m0 := roundHalfEvenZ (a * (10 : ℚ) ^ ((p : ℤ) - 1 - e0))
    let m := if m0 = (10 : ℤ) ^ p then (10 : ℤ) ^ (p - 1) else m0
    let e := if m0 = (10 : ℤ) ^ p then e0 + 1 else e0
    let ds := Nat.toDigits 10 m.natAbs
    if -4 ≤ e ∧ e < (p : ℤ) then
      if 0 ≤ e then
        let ip := ds.take (e.toNat + 1)
        let fp := dropTrailingZeros (ds.drop (e.toNat + 1))
        sgn ++ String.mk ip ++ (if fp.isEmpty then "" else "." ++ String.mk fp)
      else
        sgn ++ "0." ++ String.mk (List.replicate (-(e + 1)).toNat '0')
          ++ String.mk (dropTrailingZeros ds)
    else
      let rest := dropTrailingZeros (ds.drop 1)
      let esgn := if e < 0 then "-" else "+"
      let eds := Nat.toDigits 10 e.natAbs
      sgn ++ String.mk (ds.take 1)
        ++ (if rest.isEmpty then "" else "." ++ String.mk rest)
        ++ "e" ++ esgn ++ String.mk (if eds.length < 2 then '0' :: eds else eds)

/-- Embedding of `round_num(n, round_to)`:
`sig_figs = _format_sig_figs(n, round_to); return f"\x7bn:.\x7bsig_figs\x7dg\x7d"`.
A negative computed precision makes the format specifier invalid and raises
`ValueError`, modelled as `none`. -/
def round_num (n : ℚ) (round_to : ℤ) : Option String :=
  (_format_sig_figs n (some round_to)).bind fun k =>
    if k < 0 then none else some (pyFormatG k n)

/-- Digits of a nonnegative hundredths count as a two-decimal string body. -/
def fixed2Render (a : ℕ) : String :=
  natToStr (a / 100) ++ "." ++ (if a % 100 < 10 then "0" else "") ++ natToStr (a % 100)

/-- Embedding of Python `f"\x7bx:.2f\x7d"` on an exact rational: round
`x * 100` to the nearest integer (ties to even) and print with two digits
after the decimal point; a negative input keeps its sign, as in Python,
even when it rounds to zero. -/
def pyFixed2 (x : ℚ) : String :=
  (if x < 0 then "-" else "") ++ fixed2Render (roundHalfEvenZ (x * 100)).natAbs

/-- Embedding of `x.mean().values` for a flat collection of samples. -/
def xrMean (xs : List ℚ) : ℚ :=
  xs.sum / (xs.length : ℚ)

/-- Embedding of `x.quantile(q).values` for a flat collection of samples:
NumPy/xarray's default linear-interpolation quantile.  With `s` the sorted
samples and `h = q * (n - 1)`, the result interpolates between `s[⌊h⌋]` and
`s[⌊h⌋ + 1]` (the upper index clamped at the last element). -/
def xrQuantile (xs : List ℚ) (q : ℚ) : ℚ :=
  let s := List.insertionSort (· ≤ ·) xs
  let h := q * ((s.length : ℚ) - 1)
  let i := (⌊h⌋).toNat
  let lo := s.getD i 0
  let hi := s.getD (i + 1) lo
  lo + (h - (i : ℚ)) * (hi - lo)

/-- The fixed credible-interval annotation `r"$CI_\x7b94\%\x7d$"` from
`convert_to_string`. -/
def ciLabel : String := "$CI_\x7b94\\%\x7d$"

/-- Inputs reaching `convert_to_string` at runtime: the annotated
`Union[float, xr.DataArray]`, plus Python ints, which the unenforced
annotation does not keep out. -/
inductive XVal where
  | ofFloat : ℚ → XVal
  | ofInt : ℤ → XVal
  | ofArray : List ℚ → XVal

/-- Embedding of `convert_to_string(x, round_to=2)`:
`isinstance(x, float)` selects the two-decimal scalar branch; any other
input takes the distributional branch, where
`percentiles = x.quantile([0.03, 1 - 0.03]).values` and the result is
`f"\x7bx.mean().values:.2f\x7d"` followed by the credible-interval label and
`f"[\x7bround_num(percentiles[0], round_to)\x7d, \x7bround_num(percentiles[1], round_to)\x7d]"`.
A Python int has no `.quantile`/`.mean`, so the distributional branch raises
`AttributeError` there, modelled as `none`.  (On an empty array NumPy's
quantile and mean are NaN, which `ℚ` cannot represent; every statement below
about the distributional branch assumes a nonempty sample list.) -/
def convert_to_string (x : XVal) (round_to : ℤ) : Option String :=
  match x with
  | .ofFloat v => some (pyFixed2 v)
  | .ofInt _ => none
  | .ofArray xs =>
      let percentiles := ([3/100, 1 - 3/100] : List ℚ).map (xrQuantile xs)
      (round_num (percentiles.getD 0 0) round_to).bind fun lo =>
        (round_num (percentiles.getD 1 0) round_to).map fun hi =>
          pyFixed2 (xrMean xs) ++ (ciLabel ++ ("[" ++ lo ++ ", " ++ hi ++ "]"))

/-! ## Claim C4 -/

/-- Claim C4: for every nonzero value and every positive integer default,
`_format_sig_figs` returns `max(floor(log10(abs value)) + 1, default)` (the
`int()` truncation only differs from the floor when `abs value < 1`, where
both candidates are below the positive default); an unset default behaves as
2; and `_format_sig_figs(0.1234, 2) = 2`, `_format_sig_figs(123.4, 2) = 3`. -/
theorem C4_sig_figs_floor_log (v : ℚ) (d : ℤ) :
    (v ≠ 0 → 1 ≤ d →
      _format_sig_figs v (some d) = some (max (Int.log 10 |v| + 1) d))
    ∧ _format_sig_figs v none = _format_sig_figs v (some 2)
    ∧ _format_sig_figs (1234/10000) (some 2) = some 2
    ∧ _format_sig_figs (1234/10) (some 2) = some 3 := by
  refine ⟨?_, rfl, ?_, ?_⟩
  · intro hv hd
    unfold _format_sig_figs np_log10_trunc
    rw [if_neg hv, if_neg hv]
    simp only [Option.map_some', Option.getD_some]
    by_cases h1 : 1 ≤ |v|
    · rw [if_pos h1]
    · rw [if_neg h1]
      push_neg at h1
      have hle : |v| ≤ 1 := h1.le
      have hclog : Int.clog 10 |v| ≤ 0 := by
        rw [Int.clog_of_right_le_one 10 hle]
        simp
      have hlog : Int.log 10 |v| ≤ 0 := by
        rw [Int.log_of_right_le_one 10 hle]
        simp
      congr 1
      rw [max_eq_right (by omega), max_eq_right (by omega)]
  · have hne : (1234/10000 : ℚ) ≠ 0 := by norm_num
    have habs : |(1234/10000 : ℚ)| = 1234/10000 := abs_of_pos (by norm_num)
    have hnf : ⌊((1234/10000 : ℚ))⁻¹⌋₊ = 8 := by
      rw [Nat.floor_eq_iff (by positivity)]
      norm_num
    have hl8 : Nat.log 10 8 = 0 :=
      Nat.log_eq_of_pow_le_of_lt_pow (by norm_num : 10 ^ 0 ≤ 8) (by norm_num)
    have hclog : Int.clog 10 (1234/10000 : ℚ) = 0 := by
      rw [Int.clog_of_right_le_one 10 (by norm_num), hnf, hl8]
      rfl
    unfold _format_sig_figs np_log10_trunc
    rw [if_neg hne, if_neg hne, habs, if_neg (by norm_num), hclog]
    rfl
  · have hne : (1234/10 : ℚ) ≠ 0 := by norm_num
    have habs : |(1234/10 : ℚ)| = 1234/10 := abs_of_pos (by norm_num)
    have hnf : ⌊(1234/10 : ℚ)⌋₊ = 123 := by
      rw [Nat.floor_eq_iff (by positivity)]
      norm_num
    have hl123 : Nat.log 10 123 = 2 :=
      Nat.log_eq_of_pow_le_of_lt_pow (by norm_num : 10 ^ 2 ≤ 123) (by norm_num)
    have hlog : Int.log 10 (1234/10 : ℚ) = 2 := by
      rw [Int.log_of_one_le_right 10 (by norm_num), hnf, hl123]
      rfl
    unfold _format_sig_figs np_log10_trunc
    rw [if_neg hne, if_neg hne, habs, if_pos (by norm_num), hlog]
    rfl

theorem C4_witness :
    ((123 : ℚ) ≠ 0 ∧ 1 ≤ (2 : ℤ))
    ∧ _format_sig_figs 123 (some 2) = some (max (Int.log 10 |(123 : ℚ)| + 1) 2) :=
  ⟨⟨by norm_num, by norm_num⟩, (C4_sig_figs_floor_log 123 2).1 (by norm_num) (by norm_num)⟩

/-! ## Claim C6 -/

/-- Claim C6: `_format_sig_figs` returns 1 on a zero value for every default,
and the truncated logarithm — undefined at zero, where `np.log10` yields
`-inf` and `int()` raises — is never reached: the zero test is taken first,
so the function is total on all inputs. -/
theorem C6_zero_value_safe (d : Option ℤ) :
    _format_sig_figs 0 d = some 1
    ∧ np_log10_trunc 0 = none
    ∧ ∀ v : ℚ, (_format_sig_figs v d).isSome = true := by
  refine ⟨?_, ?_, ?_⟩
  · unfold _format_sig_figs
    rw [if_pos rfl]
  · unfold np_log10_trunc
    rw [if_pos rfl]
  · intro v
    by_cases hv : v = 0
    · subst hv
      unfold _format_sig_figs
      rw [if_pos rfl]
      rfl
    · unfold _format_sig_figs np_log10_trunc
      rw [if_neg hv, if_neg hv]
      rfl

/-! ## Claim C5 -/

/-- Claim C5: on a float input `convert_to_string` returns the fixed
two-decimal rendering of the value, identically for every `round_to`, and
`convert_to_string(3.14159) = "3.14"`. -/
theorem C5_scalar_two_decimals :
    (∀ (x : ℚ) (r₁ r₂ : ℤ),
      convert_to_string (.ofFloat x) r₁ = convert_to_string (.ofFloat x) r₂
      ∧ convert_to_string (.ofFloat x) r₁ = some (pyFixed2 x))
    ∧ convert_to_string (.ofFloat (314159/100000)) 2 = some "3.14" := by
  refine ⟨fun x r₁ r₂ => ⟨rfl, rfl⟩, ?_⟩
  show some (pyFixed2 (314159/100000)) = some "3.14"
  have hfloor : ⌊(314159/100000 : ℚ) * 100⌋ = 314 := by
    rw [show ((314159 : ℚ)/100000 * 100) = 314159/1000 by norm_num,
      Int.floor_eq_iff]
    norm_num
  have hrnd : roundHalfEvenZ ((314159 : ℚ)/100000 * 100) = 314 := by
    unfold roundHalfEvenZ
    rw [hfloor, if_pos (by norm_num)]
  unfold pyFixed2
  rw [hrnd, if_neg (by norm_num : ¬ ((314159 : ℚ)/100000) < 0)]
  rfl

/-! ## Claim C9 -/

/-- Claim C9: `convert_to_string` dispatches on the input being exactly a
float; a Python int misses the scalar branch and the distributional branch's
`.quantile`/`.mean` attribute accesses raise, so no formatted string is
returned. -/
theorem C9_int_input_raises (n : ℤ) (r : ℤ) :
    convert_to_string (.ofInt n) r = none :=
  rfl

/-! ## Claim C3 -/

/-- Claim C3: on a distributional input, `convert_to_string` concatenates the
two-decimal mean, the fixed 94%-credible-interval label, and the bracketed
3rd and 97th percentiles (computed as `0.03` and `1 - 0.03` quantiles), each
bound rendered by `round_num` with `round_to` as the significant-figure
default. -/
theorem C3_distributional_format (xs : List ℚ) (r : ℤ) (_h : 0 < xs.length) :
    convert_to_string (.ofArray xs) r =
      (round_num (xrQuantile xs (3/100)) r).bind fun lo =>
        (round_num (xrQuantile xs (97/100)) r).map fun hi =>
          pyFixed2 (xrMean xs) ++ ciLabel ++ "[" ++ lo ++ ", " ++ hi ++ "]" := by
  simp only [convert_to_string, List.map_cons, List.map_nil, List.getD_cons_zero,
    List.getD_cons_succ]
  rw [show ((1 : ℚ) - 3/100) = 97/100 by norm_num]
  simp only [String.append_assoc]

theorem C3_witness :
    0 < ([(1 : ℚ), 2]).length
    ∧ convert_to_string (.ofArray [(1 : ℚ), 2]) 2 =
        (round_num (xrQuantile [(1 : ℚ), 2] (3/100)) 2).bind fun lo =>
          (round_num (xrQuantile [(1 : ℚ), 2] (97/100)) 2).map fun hi =>
            pyFixed2 (xrMean [(1 : ℚ), 2]) ++ ciLabel ++ "[" ++ lo ++ ", " ++ hi ++ "]" :=
  ⟨by decide, C3_distributional_format [(1 : ℚ), 2] 2 (by decide)⟩
